import Mathlib

/-!
Shallow embedding of `css_loader.js` (Dynamic CSS Loader).

The loader mutates a single document (a list of link elements appended to
the head) and waits on the platform's load/error events.  We model the
document as a list of `LinkElem`, the platform as an oracle `Env` mapping
each stylesheet path to whether its load event (as opposed to its error
event) fires, and every operation as a pure function returning an
`Outcome`: the document after the run, how the returned promise settles,
and the ordered trace of platform events observed.
-/

namespace CSSLoader

/-- A stylesheet link element as created by `loadCSS`: its `href` path and
the optional `id` attribute set on it. -/
structure LinkElem where
  href : String
  id : Option String
  deriving DecidableEq, Repr

/-- The document state visible to the loader: its elements in document
order.  The loader only ever appends to this list. -/
abbrev Doc := List LinkElem

/-- The platform oracle: for each stylesheet path, whether the browser fires
the load event (`true`) or the error event (`false`) for a link element
with that href. -/
abbrev Env := String → Bool

/-- Platform events observed while loading: the head insertion that starts
a load attempt for a path, and the load/error event that completes it. -/
inductive Ev where
  | start (path : String)
  | done (path : String) (ok : Bool)
  deriving DecidableEq, Repr

/-- Decidable equality of settled promise results. -/
instance : DecidableEq (Except String Unit) := fun a b =>
  match a, b with
  | .ok (), .ok () => isTrue rfl
  | .ok (), .error _ => isFalse (fun h => Except.noConfusion h)
  | .error _, .ok () => isFalse (fun h => Except.noConfusion h)
  | .error x, .error y =>
    if h : x = y then isTrue (by rw [h])
    else isFalse (fun hh => h (Except.error.injEq .. ▸ hh))

/-- Result of running one of the loader's operations: the document after
the run, how the returned promise settles (`ok` = resolved, `error` =
rejected with that message), and the trace of platform events in order. -/
structure Outcome where
  doc : Doc
  res : Except String Unit
  tr : List Ev
  deriving DecidableEq, Repr

/-- JavaScript truthiness of the optional `id` parameter: `undefined` and
the empty string are both falsy, so only a nonempty id is looked up by
`document.getElementById` or assigned to the new link element. -/
def truthyId : Option String → Option String
  | none => none
  | some s => if s = "" then none else some s

/-- Whether `document.getElementById i` finds an element, over the modelled
document. -/
def getById (doc : Doc) (i : String) : Bool :=
  doc.any (fun e => e.id == some i)

/-- Number of elements of the document carrying identifier `i`. -/
def countId (doc : Doc) (i : String) : Nat :=
  (doc.filter (fun e => e.id == some i)).length

/-- The non-short-circuit path of `loadCSS`: create the link element with
the given href and (truthy) id, append it to the head, and settle the
promise according to the platform's load/error event for that path.  The
element stays appended in either case; `onerror` does not remove it. -/
def attemptLoad (env : Env) (doc : Doc) (cssPath : String) (idOpt : Option String) : Outcome :=
  let doc' := doc ++ [{ href := cssPath, id := idOpt }]
  if env cssPath then
    { doc := doc', res := .ok (), tr := [.start cssPath, .done cssPath true] }
  else
    { doc := doc', res := .error ("Failed to load CSS: " ++ cssPath),
      tr := [.start cssPath, .done cssPath false] }

/-- `loadCSS(cssPath, id)`: if a truthy id is supplied and an element with
that id already exists, resolve immediately with no DOM change and no
platform events; otherwise append a new link element and settle on the
platform's report. -/
def loadCSS (env : Env) (doc : Doc) (cssPath : String) (id? : Option String) : Outcome :=
  match truthyId id? with
  | some i =>
    if getById doc i then { doc := doc, res := .ok (), tr := [] }
    else attemptLoad env doc cssPath (some i)
  | none => attemptLoad env doc cssPath none

/-- Whether the id-based duplicate check at the top of `loadCSS` fires for
this document and optional id. -/
def shortCircuit (doc : Doc) (id? : Option String) : Bool :=
  match truthyId id? with
  | some i => getById doc i
  | none => false

/-- JavaScript `String.prototype.split` with a single-character separator,
acting on the character list of the string; `acc` is the current segment
being read, in reverse. -/
def splitChar (c : Char) : List Char → List Char → List (List Char)
  | [], acc => [acc.reverse]
  | x :: xs, acc =>
    if x == c then acc.reverse :: splitChar c xs [] else splitChar c xs (x :: acc)

/-- `path.split('/').pop()`: the last segment of the pathname (`split`
always yields a nonempty array, so `pop` cannot be `undefined`). -/
def lastSegment (pathname : String) : List Char :=
  (splitChar '/' pathname.toList []).getLastD []

/-- Whether `pat` occurs at the head of `l`. -/
def startsWithList : List Char → List Char → Bool
  | [], _ => true
  | _ :: _, [] => false
  | p :: ps, x :: xs => p == x && startsWithList ps xs

/-- JavaScript `String.prototype.replace` with a plain-string pattern and
empty replacement: remove the first occurrence of `pat`, scanning left to
right; leave the string unchanged when `pat` does not occur. -/
def removeFirstOcc (pat : List Char) : List Char → List Char
  | [] => []
  | x :: xs =>
    if startsWithList pat (x :: xs) then List.drop pat.length (x :: xs)
    else x :: removeFirstOcc pat xs

/-- The page name `autoLoadPageCSS` derives:
`window.location.pathname.split('/').pop().replace('.html', '')`. -/
def pageName (pathname : String) : String :=
  String.mk (removeFirstOcc ".html".toList (lastSegment pathname))

/-- Modelled from the spec, not from the code: the page-name derivation as
the spec words it, "last path segment, with a `.html` suffix stripped if
present" — kept only to compare against the code's `pageName`. -/
def specPageName (pathname : String) : String :=
  let seg := lastSegment pathname
  if startsWithList ".html".toList.reverse seg.reverse then
    String.mk (seg.take (seg.length - ".html".toList.length))
  else String.mk seg

/-- `autoLoadPageCSS()`: derive the page name; when it is truthy and
nonempty, await `loadCSS('./<name>.css', 'page-css-<name>')` inside
try/catch (a rejection is only logged, never re-thrown); otherwise do
nothing and resolve. -/
def autoLoadPageCSS (env : Env) (pathname : String) (doc : Doc) : Outcome :=
  let name := pageName pathname
  if name ≠ "" then
    let r := loadCSS env doc ("./" ++ name ++ ".css") (some ("page-css-" ++ name))
    { doc := r.doc, res := .ok (), tr := r.tr }
  else { doc := doc, res := .ok (), tr := [] }

/-- The fixed candidate list of generic stylesheet filenames
(`commonCSSFiles` in the source). -/
def commonCSSFiles : List String := ["style.css"]

/-- The loop of `loadGenericCSS`, with `i` the loop counter: await
`loadCSS('./<file>', 'generic-css-<i>')`; `break` after the first success,
`continue` to the next candidate on rejection; fall through with no error
when the list is exhausted. -/
def loadGenericAux (env : Env) : Nat → Doc → List String → Outcome
  | _, doc, [] => { doc := doc, res := .ok (), tr := [] }
  | i, doc, f :: rest =>
    let r := loadCSS env doc ("./" ++ f) (some ("generic-css-" ++ toString i))
    match r.res with
    | .ok _ => { doc := r.doc, res := .ok (), tr := r.tr }
    | .error _ =>
      let r2 := loadGenericAux env (i + 1) r.doc rest
      { doc := r2.doc, res := r2.res, tr := r.tr ++ r2.tr }

/-- `loadGenericCSS()`: run the candidate loop from index 0 over the fixed
candidate list. -/
def loadGenericCSS (env : Env) (doc : Doc) : Outcome :=
  loadGenericAux env 0 doc commonCSSFiles

/-- The `loadAllCSS` closure inside `init`: await `loadGenericCSS`, then
`autoLoadPageCSS`, the whole sequence inside try/catch — any error is
logged and swallowed, never re-thrown. -/
def loadAllCSS (env : Env) (pathname : String) (doc : Doc) : Outcome :=
  let r1 := loadGenericCSS env doc
  match r1.res with
  | .error _ => { doc := r1.doc, res := .ok (), tr := r1.tr }
  | .ok _ =>
    let r2 := autoLoadPageCSS env pathname r1.doc
    match r2.res with
    | .error _ => { doc := r2.doc, res := .ok (), tr := r1.tr ++ r2.tr }
    | .ok _ => { doc := r2.doc, res := .ok (), tr := r1.tr ++ r2.tr }

/-- How `init` schedules `loadAllCSS`. -/
inductive InitAction where
  | immediate
  | deferred
  deriving DecidableEq, Repr

/-- `init()`: if `document.readyState === 'loading'`, register `loadAllCSS`
as a DOMContentLoaded listener; otherwise invoke it at once. -/
def initSchedule (readyState : String) : InitAction :=
  if readyState = "loading" then .deferred else .immediate

/-- Number of times the scheduled `loadAllCSS` body runs, given how many
times the DOMContentLoaded event fires after `init` returns: a registered
listener runs once per firing; an immediate invocation runs once and leaves
no listener behind.  The browser fires DOMContentLoaded exactly once, i.e.
`dclFires = 1`. -/
def runsOfInit (readyState : String) (dclFires : Nat) : Nat :=
  match initSchedule readyState with
  | .immediate => 1
  | .deferred => dclFires

/-- A trace is serial when it is a sequence of complete attempt blocks:
each started load finishes (load or error event) before anything else
starts — no two attempts overlap. -/
inductive Serial : List Ev → Prop
  | nil : Serial []
  | block (p : String) (b : Bool) (t : List Ev) :
      Serial t → Serial (Ev.start p :: Ev.done p b :: t)

/-- Platform oracle under which every stylesheet path fails to load. -/
def envNone : Env := fun _ => false

/-- Platform oracle under which every stylesheet path loads. -/
def envAll : Env := fun _ => true

theorem attemptLoad_doc (env : Env) (doc : Doc) (p : String) (idOpt : Option String) :
    (attemptLoad env doc p idOpt).doc = doc ++ [{ href := p, id := idOpt }] := by
  cases h : env p <;> simp [attemptLoad, h]

theorem attemptLoad_res (env : Env) (doc : Doc) (p : String) (idOpt : Option String) :
    (attemptLoad env doc p idOpt).res =
      (if env p then Except.ok () else Except.error ("Failed to load CSS: " ++ p)) := by
  cases h : env p <;> simp [attemptLoad, h]

theorem attemptLoad_tr (env : Env) (doc : Doc) (p : String) (idOpt : Option String) :
    (attemptLoad env doc p idOpt).tr = [.start p, .done p (env p)] := by
  cases h : env p <;> simp [attemptLoad, h]

theorem loadCSS_eq_attempt (env : Env) (doc : Doc) (p : String) (id? : Option String)
    (h : shortCircuit doc id? = false) :
    loadCSS env doc p id? = attemptLoad env doc p (truthyId id?) := by
  rcases hid : truthyId id? with _ | i
  · simp only [loadCSS, hid]
  · have hg : getById doc i = false := by
      simpa only [shortCircuit, hid] using h
    simp only [loadCSS, hid, hg, Bool.false_eq_true, if_false]

theorem loadCSS_eq_noop (env : Env) (doc : Doc) (p : String) (id? : Option String)
    (h : shortCircuit doc id? = true) :
    loadCSS env doc p id? = { doc := doc, res := .ok (), tr := [] } := by
  rcases hid : truthyId id? with _ | i
  · exact absurd (by simpa only [shortCircuit, hid] using h) Bool.false_ne_true
  · have hg : getById doc i = true := by
      simpa only [shortCircuit, hid] using h
    simp only [loadCSS, hid, hg, if_true]

theorem autoLoadPageCSS_res (env : Env) (pathname : String) (doc : Doc) :
    (autoLoadPageCSS env pathname doc).res = .ok () := by
  simp only [autoLoadPageCSS]
  split <;> rfl

theorem loadGenericAux_res (env : Env) (files : List String) :
    ∀ (i : Nat) (doc : Doc), (loadGenericAux env i doc files).res = .ok () := by
  induction files with
  | nil => intro i doc; rfl
  | cons f rest ih =>
    intro i doc
    simp only [loadGenericAux]
    split
    · rfl
    · exact ih _ _

theorem loadGenericCSS_res (env : Env) (doc : Doc) :
    (loadGenericCSS env doc).res = .ok () :=
  loadGenericAux_res env commonCSSFiles 0 doc

theorem loadAllCSS_res (env : Env) (pathname : String) (doc : Doc) :
    (loadAllCSS env pathname doc).res = .ok () := by
  simp only [loadAllCSS]
  split
  · rfl
  · split <;> rfl

theorem loadAllCSS_tr (env : Env) (pathname : String) (doc : Doc) :
    (loadAllCSS env pathname doc).tr =
      (loadGenericCSS env doc).tr ++
        (autoLoadPageCSS env pathname (loadGenericCSS env doc).doc).tr := by
  simp only [loadAllCSS, loadGenericCSS_res, autoLoadPageCSS_res]

theorem Serial.append {s t : List Ev} (hs : Serial s) (ht : Serial t) :
    Serial (s ++ t) := by
  induction hs with
  | nil => exact ht
  | block p b u _ ih => exact Serial.block p b _ ih

theorem loadCSS_tr_serial (env : Env) (doc : Doc) (p : String) (id? : Option String) :
    Serial (loadCSS env doc p id?).tr := by
  rcases h : shortCircuit doc id? with _ | _
  · rw [loadCSS_eq_attempt env doc p id? h, attemptLoad_tr]
    exact Serial.block p (env p) [] Serial.nil
  · rw [loadCSS_eq_noop env doc p id? h]
    exact Serial.nil

theorem loadGenericAux_tr_serial (env : Env) (files : List String) :
    ∀ (i : Nat) (doc : Doc), Serial (loadGenericAux env i doc files).tr := by
  induction files with
  | nil => intro i doc; exact Serial.nil
  | cons f rest ih =>
    intro i doc
    simp only [loadGenericAux]
    split
    · exact loadCSS_tr_serial ..
    · exact Serial.append (loadCSS_tr_serial ..) (ih ..)

theorem autoLoadPageCSS_tr_serial (env : Env) (pathname : String) (doc : Doc) :
    Serial (autoLoadPageCSS env pathname doc).tr := by
  simp only [autoLoadPageCSS]
  split
  · exact loadCSS_tr_serial ..
  · exact Serial.nil

theorem loadCSS_doc_ext (env : Env) (doc : Doc) (p : String) (id? : Option String) :
    ∃ r, (loadCSS env doc p id?).doc = doc ++ r := by
  rcases h : shortCircuit doc id? with _ | _
  · exact ⟨_, by rw [loadCSS_eq_attempt env doc p id? h, attemptLoad_doc]⟩
  · exact ⟨[], by rw [loadCSS_eq_noop env doc p id? h]; simp⟩

theorem loadGenericAux_doc_ext (env : Env) (files : List String) :
    ∀ (i : Nat) (doc : Doc), ∃ r, (loadGenericAux env i doc files).doc = doc ++ r := by
  induction files with
  | nil => exact fun i doc => ⟨[], by simp [loadGenericAux]⟩
  | cons f rest ih =>
    intro i doc
    simp only [loadGenericAux]
    split
    · exact loadCSS_doc_ext ..
    · obtain ⟨r1, h1⟩ := loadCSS_doc_ext env doc ("./" ++ f) (some ("generic-css-" ++ toString i))
      obtain ⟨r2, h2⟩ := ih (i + 1) (loadCSS env doc ("./" ++ f) (some ("generic-css-" ++ toString i))).doc
      exact ⟨r1 ++ r2, by rw [h2, h1, List.append_assoc]⟩

theorem loadGenericCSS_doc_ext (env : Env) (doc : Doc) :
    ∃ r, (loadGenericCSS env doc).doc = doc ++ r :=
  loadGenericAux_doc_ext env commonCSSFiles 0 doc

theorem autoLoadPageCSS_doc_ext (env : Env) (pathname : String) (doc : Doc) :
    ∃ r, (autoLoadPageCSS env pathname doc).doc = doc ++ r := by
  simp only [autoLoadPageCSS]
  split
  · exact loadCSS_doc_ext ..
  · exact ⟨[], by simp⟩

theorem loadAllCSS_doc_ext (env : Env) (pathname : String) (doc : Doc) :
    ∃ r, (loadAllCSS env pathname doc).doc = doc ++ r := by
  simp only [loadAllCSS, loadGenericCSS_res, autoLoadPageCSS_res]
  obtain ⟨r1, h1⟩ := loadGenericCSS_doc_ext env doc
  obtain ⟨r2, h2⟩ := autoLoadPageCSS_doc_ext env pathname (loadGenericCSS env doc).doc
  exact ⟨r1 ++ r2, by rw [h2, h1, List.append_assoc]⟩

theorem countId_append (d1 d2 : Doc) (i : String) :
    countId (d1 ++ d2) i = countId d1 i + countId d2 i := by
  simp [countId, List.filter_append]

theorem countId_eq_zero (doc : Doc) (i : String) (h : getById doc i = false) :
    countId doc i = 0 := by
  induction doc with
  | nil => rfl
  | cons e d ih =>
    rw [getById, List.any_cons, Bool.or_eq_false_iff] at h
    rw [countId, List.filter_cons, if_neg (by simp [h.1]), ← countId]
    exact ih h.2

theorem getById_append (d1 d2 : Doc) (i : String) :
    getById (d1 ++ d2) i = (getById d1 i || getById d2 i) := by
  simp [getById, List.any_append]

theorem loadGenericCSS_eq (env : Env) (doc : Doc)
    (h : getById doc "generic-css-0" = false) :
    loadGenericCSS env doc =
      { doc := doc ++ [{ href := "./style.css", id := some "generic-css-0" }],
        res := .ok (),
        tr := [.start "./style.css", .done "./style.css" (env "./style.css")] } := by
  have e1 : ("./" ++ "style.css" : String) = "./style.css" := by decide
  have e2 : ("generic-css-" ++ toString (0 : Nat) : String) = "generic-css-0" := by decide
  have ht : truthyId (some "generic-css-0") = some "generic-css-0" := by decide
  have hsc : shortCircuit doc (some "generic-css-0") = false := by
    simp only [shortCircuit, ht]; exact h
  unfold loadGenericCSS commonCSSFiles
  simp only [loadGenericAux, e1, e2]
  rw [loadCSS_eq_attempt env doc "./style.css" (some "generic-css-0") hsc, ht]
  cases henv : env "./style.css" <;> simp [attemptLoad, henv, loadGenericAux]

/-- Claim C1: with a (nonempty) identifier, a first `load` on a document
holding no element with that identifier appends exactly one element with
it, and a second `load` with the same identifier resolves successfully at
once, appending nothing, emitting no platform events and leaving the
document unchanged — so at most one element per identifier is ever
appended. -/
theorem load_by_id_idempotent (env env2 : Env) (doc : Doc) (p1 p2 i : String)
    (hi : i ≠ "") (h : getById doc i = false) :
    countId (loadCSS env doc p1 (some i)).doc i = 1 ∧
    loadCSS env2 (loadCSS env doc p1 (some i)).doc p2 (some i) =
      { doc := (loadCSS env doc p1 (some i)).doc, res := .ok (), tr := [] } := by
  have ht : truthyId (some i) = some i := by simp [truthyId, hi]
  have hsc : shortCircuit doc (some i) = false := by
    simp only [shortCircuit, ht]; exact h
  have hdoc : (loadCSS env doc p1 (some i)).doc = doc ++ [{ href := p1, id := some i }] := by
    rw [loadCSS_eq_attempt env doc p1 (some i) hsc, ht, attemptLoad_doc]
  constructor
  · rw [hdoc, countId_append, countId_eq_zero doc i h]
    simp [countId]
  · have hg : getById (loadCSS env doc p1 (some i)).doc i = true := by
      rw [hdoc, getById_append]
      simp [getById]
    have hsc2 : shortCircuit (loadCSS env doc p1 (some i)).doc (some i) = true := by
      simp only [shortCircuit, ht]; exact hg
    exact loadCSS_eq_noop env2 _ p2 (some i) hsc2

/-- Witness for C1 at identifier `x`, paths `a.css` then `b.css`, empty
initial document. -/
theorem load_by_id_idempotent_witness :
    ("x" : String) ≠ "" ∧ getById [] "x" = false ∧
    countId (loadCSS envAll [] "a.css" (some "x")).doc "x" = 1 ∧
    loadCSS envNone (loadCSS envAll [] "a.css" (some "x")).doc "b.css" (some "x") =
      { doc := (loadCSS envAll [] "a.css" (some "x")).doc, res := .ok (), tr := [] } := by
  have h := load_by_id_idempotent envAll envNone [] "a.css" "b.css" "x" (by decide) (by decide)
  exact ⟨by decide, by decide, h.1, h.2⟩

/-- Claim C2 counterexample: the code removes the FIRST occurrence of
`.html` from the last path segment, not a `.html` suffix.  For the path
`/notes/page.html.bak` the suffix-stripping rule of the spec keeps the
name `page.html.bak`, but the code derives `page.bak` and attempts the
resource `./page.bak.css`, not `./page.html.bak.css`. -/
theorem autoLoad_suffix_strip_cex :
    pageName "/notes/page.html.bak" = "page.bak" ∧
    specPageName "/notes/page.html.bak" = "page.html.bak" ∧
    pageName "/notes/page.html.bak" ≠ specPageName "/notes/page.html.bak" ∧
    (autoLoadPageCSS envAll "/notes/page.html.bak" []).tr =
      [.start "./page.bak.css", .done "./page.bak.css" true] ∧
    (autoLoadPageCSS envAll "/notes/page.html.bak" []).tr ≠
      [.start "./page.html.bak.css", .done "./page.html.bak.css" true] := by
  exact ⟨by decide, by decide, by decide, by decide, by decide⟩

/-- Claim C2 (amended): `autoLoadPageCSS` derives the page name as the last
path segment with the first occurrence of `.html` removed (which equals
suffix-stripping whenever `.html` occurs only as a suffix); when the name
is non-empty it performs exactly the load of `./<name>.css` with
identifier `page-css-<name>` and resolves; in particular for
`/foo/bar/dashboard.html` it attempts `./dashboard.css` with identifier
`page-css-dashboard`. -/
theorem autoLoadPageCSS_attempts_derived_name (env : Env) (doc : Doc) (pathname : String)
    (h : pageName pathname ≠ "") :
    autoLoadPageCSS env pathname doc =
      { doc := (loadCSS env doc ("./" ++ pageName pathname ++ ".css")
          (some ("page-css-" ++ pageName pathname))).doc,
        res := .ok (),
        tr := (loadCSS env doc ("./" ++ pageName pathname ++ ".css")
          (some ("page-css-" ++ pageName pathname))).tr } ∧
    pageName "/foo/bar/dashboard.html" = "dashboard" ∧
    (autoLoadPageCSS envAll "/foo/bar/dashboard.html" []).tr =
      [.start "./dashboard.css", .done "./dashboard.css" true] := by
  refine ⟨?_, by decide, by decide⟩
  simp [autoLoadPageCSS, h]

/-- Witness for C2 (amended) at the path `/foo/bar/dashboard.html`. -/
theorem autoLoadPageCSS_attempts_derived_name_witness :
    pageName "/foo/bar/dashboard.html" ≠ "" ∧
    autoLoadPageCSS envAll "/foo/bar/dashboard.html" [] =
      { doc := (loadCSS envAll [] ("./" ++ pageName "/foo/bar/dashboard.html" ++ ".css")
          (some ("page-css-" ++ pageName "/foo/bar/dashboard.html"))).doc,
        res := .ok (),
        tr := (loadCSS envAll [] ("./" ++ pageName "/foo/bar/dashboard.html" ++ ".css")
          (some ("page-css-" ++ pageName "/foo/bar/dashboard.html"))).tr } :=
  ⟨by decide,
   (autoLoadPageCSS_attempts_derived_name envAll [] "/foo/bar/dashboard.html" (by decide)).1⟩

/-- Claim C3 counterexample: when the only candidate `./style.css` fails to
load, `loadGenericCSS` does resolve successfully, but not with zero
elements inserted — the failed candidate's link element was appended
before the error event and is never removed, so one element remains. -/
theorem loadGeneric_all_fail_leaves_element_cex :
    (loadGenericCSS envNone []).res = .ok () ∧
    (loadGenericCSS envNone []).doc ≠ [] ∧
    (loadGenericCSS envNone []).doc =
      [{ href := "./style.css", id := some "generic-css-0" }] := by
  exact ⟨by decide, by decide, by decide⟩

/-- Claim C3 (amended): `loadGenericCSS` attempts its single candidate
`./style.css` (under identifier `generic-css-0`) and never rejects: on the
platform's load event it resolves with that one link element appended; on
the error event it still resolves successfully, but the failed candidate's
link element remains appended (one element per attempted candidate, not
zero). -/
theorem loadGeneric_in_order_never_rejects (env : Env) (doc : Doc)
    (h : getById doc "generic-css-0" = false) :
    (loadGenericCSS env doc).res = Except.ok () ∧
    (env "./style.css" = true →
      loadGenericCSS env doc =
        { doc := doc ++ [{ href := "./style.css", id := some "generic-css-0" }],
          res := .ok (), tr := [.start "./style.css", .done "./style.css" true] }) ∧
    (env "./style.css" = false →
      loadGenericCSS env doc =
        { doc := doc ++ [{ href := "./style.css", id := some "generic-css-0" }],
          res := .ok (), tr := [.start "./style.css", .done "./style.css" false] }) := by
  refine ⟨loadGenericCSS_res .., ?_, ?_⟩ <;> intro henv <;> rw [loadGenericCSS_eq env doc h, henv]

/-- Witness for C3 (amended) on the empty document with a loadable
`./style.css`. -/
theorem loadGeneric_in_order_never_rejects_witness :
    getById [] "generic-css-0" = false ∧ envAll "./style.css" = true ∧
    (loadGenericCSS envAll []).res = Except.ok () ∧
    loadGenericCSS envAll [] =
      { doc := [] ++ [{ href := "./style.css", id := some "generic-css-0" }],
        res := .ok (), tr := [.start "./style.css", .done "./style.css" true] } := by
  have h := loadGeneric_in_order_never_rejects envAll [] (by decide)
  exact ⟨by decide, by decide, h.1, h.2.1 (by decide)⟩

/-- Claim C4: no load failure escapes `init`'s combined sequence: for every
platform outcome, pathname and starting document, `loadAllCSS` (the
sequence `init` schedules) and both callers of `load` inside it
(`loadGenericCSS`, `autoLoadPageCSS`) resolve successfully — every
rejection of `loadCSS` is caught and suppressed. -/
theorem init_swallows_all_rejections (env : Env) (pathname : String) (doc : Doc) :
    (loadAllCSS env pathname doc).res = .ok () ∧
    (loadGenericCSS env doc).res = .ok () ∧
    (autoLoadPageCSS env pathname doc).res = .ok () :=
  ⟨loadAllCSS_res .., loadGenericCSS_res .., autoLoadPageCSS_res ..⟩

/-- Claim C5: `init` runs the load sequence immediately exactly when the
document readiness state is not `loading`, defers to the DOMContentLoaded
listener when it is `loading`, and in either case the sequence runs
exactly once given that the ready event fires exactly once. -/
theorem init_schedules_by_readyState (readyState : String) :
    (initSchedule readyState = InitAction.immediate ↔ readyState ≠ "loading") ∧
    (initSchedule readyState = InitAction.deferred ↔ readyState = "loading") ∧
    runsOfInit readyState 1 = 1 := by
  by_cases h : readyState = "loading" <;>
    simp [initSchedule, runsOfInit, h]

/-- Witness for C5 at the two concrete readiness states. -/
theorem init_schedules_by_readyState_witness :
    (initSchedule "complete" = InitAction.immediate ↔ ("complete" : String) ≠ "loading") ∧
    (initSchedule "loading" = InitAction.deferred ↔ ("loading" : String) = "loading") ∧
    runsOfInit "complete" 1 = 1 ∧ runsOfInit "loading" 1 = 1 :=
  ⟨(init_schedules_by_readyState "complete").1,
   (init_schedules_by_readyState "loading").2.1,
   (init_schedules_by_readyState "complete").2.2,
   (init_schedules_by_readyState "loading").2.2⟩

/-- Claim C6: for the path `/` the derived page name is empty, and
`autoLoadPageCSS` resolves immediately without calling `load`: no platform
event is emitted and the document is unchanged. -/
theorem autoLoad_empty_name_noop (env : Env) (doc : Doc) :
    pageName "/" = "" ∧
    autoLoadPageCSS env "/" doc = { doc := doc, res := .ok (), tr := [] } := by
  have h : pageName "/" = "" := by decide
  exact ⟨h, by simp [autoLoadPageCSS, h]⟩

/-- Claim C7: when the identifier short-circuit does not apply, `loadCSS`
settles exactly as the platform reports: it resolves on the load event and
rejects on the error event with the Error message naming the failed
path. -/
theorem load_settles_per_platform (env : Env) (doc : Doc) (p : String) (id? : Option String)
    (h : shortCircuit doc id? = false) :
    (loadCSS env doc p id?).res =
      (if env p then Except.ok () else Except.error ("Failed to load CSS: " ++ p)) := by
  rw [loadCSS_eq_attempt env doc p id? h]
  exact attemptLoad_res ..

/-- Witness for C7 at path `style.css` under the all-fail oracle. -/
theorem load_settles_per_platform_witness :
    shortCircuit [] (some "x") = false ∧
    (loadCSS envNone [] "style.css" (some "x")).res =
      (if envNone "style.css" then Except.ok ()
       else Except.error ("Failed to load CSS: " ++ "style.css")) :=
  ⟨by decide, load_settles_per_platform envNone [] "style.css" (some "x") (by decide)⟩

/-- Claim C8: `init`'s combined sequence is strictly sequential: its event
trace is exactly the generic phase's trace followed by the page-specific
phase's trace, and every trace involved is serial — each started load
attempt completes before the next one starts, so no two attempts
overlap. -/
theorem init_phases_sequential_serial (env : Env) (pathname : String) (doc : Doc) :
    (loadAllCSS env pathname doc).tr =
      (loadGenericCSS env doc).tr ++
        (autoLoadPageCSS env pathname (loadGenericCSS env doc).doc).tr ∧
    Serial (loadGenericCSS env doc).tr ∧
    Serial (autoLoadPageCSS env pathname (loadGenericCSS env doc).doc).tr ∧
    Serial (loadAllCSS env pathname doc).tr := by
  refine ⟨loadAllCSS_tr .., loadGenericAux_tr_serial .., autoLoadPageCSS_tr_serial .., ?_⟩
  rw [loadAllCSS_tr]
  exact Serial.append (loadGenericAux_tr_serial ..) (autoLoadPageCSS_tr_serial ..)

/-- Claim C9: a `loadCSS` call either leaves the document exactly as it was
(when the identifier short-circuit applies) or appends exactly one new
link element at the end; and every operation of the module only ever
extends the document — existing elements are never removed or mutated. -/
theorem load_frame_conditions (env : Env) (pathname : String) (doc : Doc)
    (p : String) (id? : Option String) :
    ((loadCSS env doc p id?).doc = doc ∨
      (loadCSS env doc p id?).doc = doc ++ [{ href := p, id := truthyId id? }]) ∧
    (shortCircuit doc id? = true → (loadCSS env doc p id?).doc = doc) ∧
    (∃ r, (loadGenericCSS env doc).doc = doc ++ r) ∧
    (∃ r, (autoLoadPageCSS env pathname doc).doc = doc ++ r) ∧
    (∃ r, (loadAllCSS env pathname doc).doc = doc ++ r) := by
  refine ⟨?_, ?_, loadGenericCSS_doc_ext .., autoLoadPageCSS_doc_ext .., loadAllCSS_doc_ext ..⟩
  · rcases h : shortCircuit doc id? with _ | _
    · right
      rw [loadCSS_eq_attempt env doc p id? h, attemptLoad_doc]
    · left
      rw [loadCSS_eq_noop env doc p id? h]
  · intro h
    rw [loadCSS_eq_noop env doc p id? h]

/-- Witness for C9: the short-circuit case leaves the document unchanged. -/
theorem load_frame_conditions_witness :
    (loadCSS envAll [{ href := "q", id := some "k" }] "p" (some "k")).doc =
      [{ href := "q", id := some "k" }] :=
  (load_frame_conditions envAll "/" [{ href := "q", id := some "k" }] "p" (some "k")).2.1
    (by decide)

/-- Claim C10: without an identifier `loadCSS` never short-circuits: it
appends a new link element for every call, for every starting document —
including documents already holding a link with the same href, since
deduplication is by identifier only, never by path. -/
theorem load_without_id_always_appends (env : Env) (doc : Doc) (p : String) :
    (loadCSS env doc p none).doc = doc ++ [{ href := p, id := none }] :=
  attemptLoad_doc env doc p none

end CSSLoader
